import Mathlib

/-!
Verification of the simulator `CryptoManagerKmip` (govmomi, `crypto/manager_kmip.go`,
simulator part) against its natural-language specification.

The simulator state is a list of registered KMIP clusters (`KmipServers`) together
with a ledger mapping generated key IDs to the provider that issued them
(`keyIDToProviderID`).  Every operation below is a direct shallow embedding of the
corresponding Go method: loops with `break` become structural recursion, Go's
`slices.Delete` becomes `List.eraseIdx`, and faults become `Except.error` carrying
the fault message built by `Fault(...)` in the source.
-/

set_option linter.unusedVariables false

/-- Opaque managed-object reference used as the entity key for per-entity defaults
(`vim25/types.ManagedObjectReference`); the core compares it only for equality. -/
structure ManagedObjectReference where
  refType : String
  value : String
deriving DecidableEq, Repr

/-- One KMIP endpoint (`vim25/types.KmipServerInfo`): the core reads only `Name`;
the remaining connection info is opaque and is collapsed into one field here. -/
structure KmipServerInfo where
  name : String
  address : String
deriving DecidableEq, Repr

/-- One registered key-provider cluster (`vim25/types.KmipClusterInfo`). -/
structure KmipClusterInfo where
  clusterId : String
  managementType : String
  useAsDefault : Bool
  useAsEntityDefault : List ManagedObjectReference
  servers : List KmipServerInfo
deriving DecidableEq, Repr

/-- State of the simulator `CryptoManagerKmip`: the ordered cluster registry
(`mo.CryptoManagerKmip.KmipServers`) and the key ledger (`keyIDToProviderID`,
a Go map modelled as an association list). -/
structure CryptoManagerKmipState where
  kmipServers : List KmipClusterInfo
  keyIDToProviderID : List (String × String)
deriving DecidableEq, Repr

/-- The reserved native-provider management type
(`types.KmipClusterInfoKmsManagementTypeNativeProvider`). -/
def nativeKeyProvider : String := "nativeProvider"

/-- The fixed healthy status (`types.ManagedEntityStatusGreen`). -/
def statusGreen : String := "green"

/-- Go zero value of `types.KmipClusterInfo`, the initial `provider` in `GenerateKey`. -/
def emptyClusterInfo : KmipClusterInfo :=
  { clusterId := "", managementType := "", useAsDefault := false
    useAsEntityDefault := [], servers := [] }

/-- Per-cluster mutation performed by `SetDefaultKmsCluster` when the request carries
a non-nil, non-empty `ClusterId` (the body of the loop at manager_kmip.go:637-661). -/
def setDefaultUpdate (id : String) (entity : Option ManagedObjectReference)
    (c : KmipClusterInfo) : KmipClusterInfo :=
  if c.clusterId ≠ id then
    { c with useAsDefault := false, useAsEntityDefault := [] }
  else
    match entity with
    | none => { c with useAsDefault := true }
    | some e =>
        if e ∈ c.useAsEntityDefault then c
        else { c with useAsEntityDefault := c.useAsEntityDefault ++ [e] }

/-- Per-cluster mutation performed by `SetDefaultKmsCluster` when the request carries
no explicit cluster ID (manager_kmip.go:662-676): with an entity, delete its first
occurrence from `UseAsEntityDefault`; otherwise clear `UseAsDefault`. -/
def setDefaultClear (entity : Option ManagedObjectReference)
    (c : KmipClusterInfo) : KmipClusterInfo :=
  match entity with
  | some e =>
      match c.useAsEntityDefault.findIdx? (fun x => x == e) with
      | some j => { c with useAsEntityDefault := c.useAsEntityDefault.eraseIdx j }
      | none => c
  | none => { c with useAsDefault := false }

/-- `CryptoManagerKmip.SetDefaultKmsCluster` (manager_kmip.go:629-686).  The loop
mutates every cluster before the outcome is decided; `validClusterID` is whether
some cluster matched the explicit ID. -/
def setDefaultKmsCluster (st : CryptoManagerKmipState) (clusterId : Option String)
    (entity : Option ManagedObjectReference) :
    CryptoManagerKmipState × Except String Unit :=
  match clusterId with
  | some id =>
      if id = "" then
        ({ st with kmipServers := st.kmipServers.map (setDefaultClear entity) },
         Except.ok ())
      else
        ({ st with kmipServers := st.kmipServers.map (setDefaultUpdate id entity) },
         if st.kmipServers.any (fun c => c.clusterId == id) then Except.ok ()
         else Except.error "Invalid cluster ID")
  | none =>
      ({ st with kmipServers := st.kmipServers.map (setDefaultClear entity) },
       Except.ok ())

/-- `CryptoManagerKmip.MarkDefault` (manager_kmip.go:615-627): delegates to
`SetDefaultKmsCluster` with the given cluster ID and no entity. -/
def markDefault (st : CryptoManagerKmipState) (clusterId : String) :
    CryptoManagerKmipState × Except String Unit :=
  setDefaultKmsCluster st (some clusterId) none

/-- `CryptoManagerKmip.RegisterKmsCluster` (manager_kmip.go:688-710). -/
def registerKmsCluster (st : CryptoManagerKmipState) (id managementType : String) :
    CryptoManagerKmipState × Except String Unit :=
  if st.kmipServers.any (fun c => c.clusterId == id) then
    (st, Except.error "Already registered")
  else
    ({ st with kmipServers := st.kmipServers ++
        [{ clusterId := id, managementType := managementType, useAsDefault := false
           useAsEntityDefault := [], servers := [] }] },
     Except.ok ())

/-- Index scan of `UnregisterKmsCluster`'s loop (manager_kmip.go:717-722): the
index of the last cluster whose ID matches, if any. -/
def lastClusterIdx (id : String) : List KmipClusterInfo → Nat → Option Nat → Option Nat
  | [], _, acc => acc
  | c :: rest, i, acc =>
      lastClusterIdx id rest (i + 1) (if c.clusterId == id then some i else acc)

/-- `CryptoManagerKmip.UnregisterKmsCluster` (manager_kmip.go:712-732). -/
def unregisterKmsCluster (st : CryptoManagerKmipState) (id : String) :
    CryptoManagerKmipState × Except String Unit :=
  match lastClusterIdx id st.kmipServers 0 none with
  | none => (st, Except.error "Invalid cluster ID")
  | some x =>
      ({ st with kmipServers := st.kmipServers.eraseIdx x }, Except.ok ())

/-- Loop of `RegisterKmipServer` (manager_kmip.go:743-762): the loop breaks at the
first cluster whose ID matches; within it, an existing server of the same name
yields `Already registered`, otherwise the server is appended. -/
def registerServerIn (id : String) (info : KmipServerInfo) :
    List KmipClusterInfo → List KmipClusterInfo × Except String Unit
  | [] => ([], Except.error "Invalid cluster ID")
  | c :: rest =>
      if c.clusterId == id then
        if c.servers.any (fun s => s.name == info.name) then
          (c :: rest, Except.error "Already registered")
        else
          ({ c with servers := c.servers ++ [info] } :: rest, Except.ok ())
      else
        let r := registerServerIn id info rest
        (c :: r.1, r.2)

/-- `CryptoManagerKmip.RegisterKmipServer` (manager_kmip.go:734-773). -/
def registerKmipServer (st : CryptoManagerKmipState) (id : String)
    (info : KmipServerInfo) : CryptoManagerKmipState × Except String Unit :=
  let r := registerServerIn id info st.kmipServers
  ({ st with kmipServers := r.1 }, r.2)

/-- Inner loop of `UpdateKmipServer` (manager_kmip.go:834-840): replace the first
server with a matching name, reporting whether one was found. -/
def updateServerList (info : KmipServerInfo) :
    List KmipServerInfo → List KmipServerInfo × Bool
  | [] => ([], false)
  | s :: rest =>
      if s.name == info.name then (info :: rest, true)
      else
        let r := updateServerList info rest
        (s :: r.1, r.2)

/-- Outer loop of `UpdateKmipServer` (manager_kmip.go:829-846): breaks at the first
cluster whose ID matches. -/
def updateServerIn (id : String) (info : KmipServerInfo) :
    List KmipClusterInfo → List KmipClusterInfo × Except String Unit
  | [] => ([], Except.error "Invalid cluster ID")
  | c :: rest =>
      if c.clusterId == id then
        let r := updateServerList info c.servers
        if r.2 then ({ c with servers := r.1 } :: rest, Except.ok ())
        else (c :: rest, Except.error "Invalid server name")
      else
        let r := updateServerIn id info rest
        (c :: r.1, r.2)

/-- `CryptoManagerKmip.UpdateKmipServer` (manager_kmip.go:820-857). -/
def updateKmipServer (st : CryptoManagerKmipState) (id : String)
    (info : KmipServerInfo) : CryptoManagerKmipState × Except String Unit :=
  let r := updateServerIn id info st.kmipServers
  ({ st with kmipServers := r.1 }, r.2)

/-- Loop of `RemoveKmipServer` (manager_kmip.go:784-807): breaks at the first cluster
whose ID matches and deletes the first server with the requested name. -/
def removeServerIn (id serverName : String) :
    List KmipClusterInfo → List KmipClusterInfo × Except String Unit
  | [] => ([], Except.error "Invalid cluster ID")
  | c :: rest =>
      if c.clusterId == id then
        match c.servers.findIdx? (fun s => s.name == serverName) with
        | some j =>
            ({ c with servers := c.servers.eraseIdx j } :: rest, Except.ok ())
        | none => (c :: rest, Except.error "Invalid server name")
      else
        let r := removeServerIn id serverName rest
        (c :: r.1, r.2)

/-- `CryptoManagerKmip.RemoveKmipServer` (manager_kmip.go:775-818). -/
def removeKmipServer (st : CryptoManagerKmipState) (id serverName : String) :
    CryptoManagerKmipState × Except String Unit :=
  let r := removeServerIn id serverName st.kmipServers
  ({ st with kmipServers := r.1 }, r.2)

/-- Provider-resolution loop of `GenerateKey` (manager_kmip.go:867-879): with no
requested provider the cluster flagged `UseAsDefault` is taken, otherwise the
cluster with the requested ID; the loop breaks once the chosen provider has a
non-empty cluster ID. -/
def generateKeyLoop (keyProvider : Option String) :
    List KmipClusterInfo → KmipClusterInfo → KmipClusterInfo
  | [], provider => provider
  | c :: rest, provider =>
      let provider1 :=
        match keyProvider with
        | none => if c.useAsDefault then c else provider
        | some id => if id == c.clusterId then c else provider
      if provider1.clusterId ≠ "" then provider1
      else generateKeyLoop keyProvider rest provider1

/-- Insertion into the Go map `keyIDToProviderID`, modelled on an association list:
overwrite the binding of an existing key, otherwise append. -/
def ledgerInsert (k v : String) : List (String × String) → List (String × String)
  | [] => [(k, v)]
  | kv :: rest => if kv.1 == k then (k, v) :: rest else kv :: ledgerInsert k v rest

/-- `CryptoManagerKmip.GenerateKey` (manager_kmip.go:859-905).  The fresh UUID
produced by `uuid.NewString()` is passed in as `newKey`. -/
def generateKey (st : CryptoManagerKmipState) (keyProvider : Option String)
    (newKey : String) : CryptoManagerKmipState × Except String String :=
  let provider := generateKeyLoop keyProvider st.kmipServers emptyClusterInfo
  if provider.clusterId = "" then
    (st, Except.error "No default provider")
  else if provider.managementType = nativeKeyProvider then
    (st, Except.error "Cannot generate keys with native key provider")
  else
    ({ st with keyIDToProviderID :=
        ledgerInsert newKey provider.clusterId st.keyIDToProviderID },
     Except.ok newKey)

/-- Limit handling shared by `ListKmipServers` (manager_kmip.go:481-488) and
`ListKeys` (manager_kmip.go:914-923): a requested limit in `[0, n)` bounds the
result, anything else (or no limit) returns all `n` entries. -/
def limitOf (reqLimit : Option Int) (n : Nat) : Nat :=
  match reqLimit with
  | none => n
  | some l => if 0 ≤ l ∧ l < (n : Int) then l.toNat else n

/-- `CryptoManagerKmip.ListKmipServers` (manager_kmip.go:474-493). -/
def listKmipServers (st : CryptoManagerKmipState) (limit : Option Int) :
    List KmipClusterInfo :=
  st.kmipServers.take (limitOf limit st.kmipServers.length)

/-- `CryptoManagerKmip.ListKeys` (manager_kmip.go:907-939); each returned record is
the pair of key ID and provider ID carried by `types.CryptoKeyId`. -/
def listKeys (st : CryptoManagerKmipState) (limit : Option Int) :
    List (String × String) :=
  st.keyIDToProviderID.take (limitOf limit st.keyIDToProviderID.length)

/-- `ManagerKmip.IsValidKey` (manager_kmip.go:331-347): scan of `ListKeys` with no
limit. -/
def isValidKey (st : CryptoManagerKmipState) (keyID : String) : Bool :=
  (listKeys st none).any (fun kv => kv.1 == keyID)

/-- Resolution loop of `GetDefaultKmsCluster` (manager_kmip.go:504-518): first
cluster holding the entity in `UseAsEntityDefault` (entity given) or flagged
`UseAsDefault` (no entity); the loop breaks once `providerID` is non-empty. -/
def getDefaultLoop (entity : Option ManagedObjectReference) :
    List KmipClusterInfo → String
  | [] => ""
  | c :: rest =>
      let providerID :=
        match entity with
        | some e => if e ∈ c.useAsEntityDefault then c.clusterId else ""
        | none => if c.useAsDefault then c.clusterId else ""
      if providerID ≠ "" then providerID else getDefaultLoop entity rest

/-- `CryptoManagerKmip.GetDefaultKmsCluster` (manager_kmip.go:496-529).  The request
field `DefaultsToParent` is carried but never read by the simulator. -/
def getDefaultKmsCluster (st : CryptoManagerKmipState)
    (entity : Option ManagedObjectReference) (defaultsToParent : Bool) :
    Except String String :=
  let providerID := getDefaultLoop entity st.kmipServers
  if providerID = "" then Except.error "No default provider"
  else Except.ok providerID

/-- Status record of one server (`types.CryptoManagerKmipServerStatus`). -/
structure CryptoManagerKmipServerStatus where
  name : String
  status : String
deriving DecidableEq, Repr

/-- Status record of one cluster (`types.CryptoManagerKmipClusterStatus`). -/
structure CryptoManagerKmipClusterStatus where
  clusterId : String
  managementType : String
  overallStatus : String
  servers : List CryptoManagerKmipServerStatus
deriving DecidableEq, Repr

/-- Selector expansion inner loop (manager_kmip.go:550-556): the server list of the
last registered cluster matching the selector's ID, starting from the selector's
own (empty) list. -/
def lastMatchServers (registry : List KmipClusterInfo) (g : KmipClusterInfo) :
    List KmipServerInfo :=
  registry.foldl (fun acc c => if g.clusterId == c.clusterId then c.servers else acc)
    g.servers

/-- Selector expansion step (manager_kmip.go:547-558): a selector with no servers is
expanded to the full server list of the matching registered cluster. -/
def statusExpand (registry : List KmipClusterInfo) (g : KmipClusterInfo) :
    KmipClusterInfo :=
  if g.servers.isEmpty then { g with servers := lastMatchServers registry g } else g

/-- Status record built for registry cluster `c` against selector `g`
(manager_kmip.go:563-582). -/
def clusterStatusFor (c g : KmipClusterInfo) : CryptoManagerKmipClusterStatus :=
  { clusterId := c.clusterId
    managementType := c.managementType
    overallStatus := statusGreen
    servers := c.servers.flatMap (fun k =>
      (g.servers.filter (fun l => k.name == l.name)).map
        (fun _ => { name := k.name, status := statusGreen })) }

/-- `retrieveKmipServerStatusTask.Run` (manager_kmip.go:537-591): empty selector
lists default to a copy of the whole registry; selectors with no servers are
expanded; one record is produced per (registry cluster, matching selector) pair,
in registry order. -/
def retrieveKmipServerStatusRun (registry : List KmipClusterInfo)
    (get : List KmipClusterInfo) : List CryptoManagerKmipClusterStatus :=
  let get1 := if get.isEmpty then registry else get
  let get2 := get1.map (statusExpand registry)
  registry.flatMap (fun c =>
    (get2.filter (fun g => c.clusterId == g.clusterId)).map (clusterStatusFor c))

/-! ### Helper lemmas about limits -/

lemma take_limitOf_zero {α : Type} (xs : List α) :
    xs.take (limitOf (some 0) xs.length) = [] := by
  unfold limitOf
  by_cases h : (0 : Int) < xs.length
  · simp [h]
  · have hlen : xs.length = 0 := by omega
    simp [List.eq_nil_of_length_eq_zero hlen]

lemma take_limitOf_neg {α : Type} (xs : List α) (l : Int) (h : l < 0) :
    xs.take (limitOf (some l) xs.length) = xs := by
  unfold limitOf
  have : ¬(0 ≤ l ∧ l < (xs.length : Int)) := by omega
  simp [this]

lemma take_limitOf_ge {α : Type} (xs : List α) (l : Int)
    (h : (xs.length : Int) ≤ l) : xs.take (limitOf (some l) xs.length) = xs := by
  unfold limitOf
  have : ¬(0 ≤ l ∧ l < (xs.length : Int)) := by omega
  simp [this]

/-! ### Concrete states used by witnesses and counterexamples -/

/-- Entity reference used as the `entity` argument in concrete scenarios. -/
def entE : ManagedObjectReference := ⟨"vm", "1"⟩

/-- A second, distinct entity reference held by another cluster. -/
def entP : ManagedObjectReference := ⟨"vm", "2"⟩

/-- Registry with cluster `A` (no defaults) and cluster `B`, which is the global
default and holds `entP` as an entity default. -/
def st0c1 : CryptoManagerKmipState :=
  ⟨[⟨"A", "t", false, [], []⟩, ⟨"B", "t", true, [entP], []⟩], []⟩

/-- Registry holding only a native key provider flagged as the global default. -/
def stNativeW : CryptoManagerKmipState :=
  ⟨[⟨"N", "nativeProvider", true, [], []⟩], []⟩

/-! ### C7: `defaultsToParent` never influences the result -/

/-- C7: for every registry state and every entity argument (including none),
`GetDefaultKmsCluster` returns the same result whether `defaultsToParent` is
passed as `true` or as `false` — the parameter is accepted but never read. -/
theorem getDefault_ignores_defaultsToParent (st : CryptoManagerKmipState)
    (entity : Option ManagedObjectReference) (b1 b2 : Bool) :
    getDefaultKmsCluster st entity b1 = getDefaultKmsCluster st entity b2 := rfl

/-! ### C8: `MarkDefault` is `SetDefault` with no entity -/

/-- C8: for every registry state and every cluster ID string (including the empty
string and unregistered IDs), `MarkDefault` produces exactly the same resulting
state and the same success-or-fault outcome as `SetDefaultKmsCluster` with that
cluster ID and no entity. -/
theorem markDefault_eq_setDefault (st : CryptoManagerKmipState) (id : String) :
    markDefault st id = setDefaultKmsCluster st (some id) none := rfl

/-! ### C9: explicit limit 0 is honored; negative or too-large limits return all -/

/-- C9: an explicit limit of `0` passed to `ListKmipServers` or `ListKeys` returns
the empty list, whereas a negative limit, or a limit at least the number of stored
entries, returns all entries. -/
theorem list_limit_boundary (st : CryptoManagerKmipState) (l : Int) :
    (listKmipServers st (some 0) = [] ∧ listKeys st (some 0) = []) ∧
    (l < 0 →
      listKmipServers st (some l) = st.kmipServers ∧
      listKeys st (some l) = st.keyIDToProviderID) ∧
    ((st.kmipServers.length : Int) ≤ l →
      listKmipServers st (some l) = st.kmipServers) ∧
    ((st.keyIDToProviderID.length : Int) ≤ l →
      listKeys st (some l) = st.keyIDToProviderID) := by
  refine ⟨⟨take_limitOf_zero _, take_limitOf_zero _⟩, ?_, ?_, ?_⟩
  · intro h
    exact ⟨take_limitOf_neg _ _ h, take_limitOf_neg _ _ h⟩
  · intro h
    exact take_limitOf_ge _ _ h
  · intro h
    exact take_limitOf_ge _ _ h

/-- Witness for C9 at a concrete ledger/registry and limits. -/
theorem list_limit_boundary_witness :
    ((-3 : Int) < 0 ∧ ((st0c1.kmipServers.length : Int) ≤ 7) ∧
      ((st0c1.keyIDToProviderID.length : Int) ≤ 7)) ∧
    ((listKmipServers st0c1 (some 0) = [] ∧ listKeys st0c1 (some 0) = []) ∧
     ((-3 : Int) < 0 →
       listKmipServers st0c1 (some (-3)) = st0c1.kmipServers ∧
       listKeys st0c1 (some (-3)) = st0c1.keyIDToProviderID) ∧
     ((st0c1.kmipServers.length : Int) ≤ (-3) →
       listKmipServers st0c1 (some (-3)) = st0c1.kmipServers) ∧
     ((st0c1.keyIDToProviderID.length : Int) ≤ (-3) →
       listKeys st0c1 (some (-3)) = st0c1.keyIDToProviderID)) ∧
    ((listKmipServers st0c1 (some 7) = st0c1.kmipServers) ∧
     (listKeys st0c1 (some 7) = st0c1.keyIDToProviderID)) :=
  ⟨⟨by decide, by decide, by decide⟩,
   list_limit_boundary st0c1 (-3),
   (list_limit_boundary st0c1 7).2.2.1 (by decide),
   (list_limit_boundary st0c1 7).2.2.2 (by decide)⟩

/-! ### C4: key generation against a native provider always fails -/

/-- C4: whenever `GenerateKey` resolves its acting provider (explicitly by cluster
ID, or via the `UseAsDefault` flag — both captured by `generateKeyLoop`) to a
cluster whose management type is the reserved native-provider tag, the call fails
with the native-provider fault and the whole state, in particular the key ledger,
is unchanged. -/
theorem generateKey_native_fails (st : CryptoManagerKmipState)
    (kp : Option String) (newKey : String)
    (hres : (generateKeyLoop kp st.kmipServers emptyClusterInfo).clusterId ≠ "")
    (hnat : (generateKeyLoop kp st.kmipServers emptyClusterInfo).managementType =
      nativeKeyProvider) :
    generateKey st kp newKey =
      (st, Except.error "Cannot generate keys with native key provider") := by
  simp only [generateKey]
  rw [if_neg hres, if_pos hnat]

/-- Witness for C4: a registry holding one native provider marked as default. -/
theorem generateKey_native_fails_witness :
    ((generateKeyLoop none stNativeW.kmipServers emptyClusterInfo).clusterId ≠ "" ∧
     (generateKeyLoop none stNativeW.kmipServers emptyClusterInfo).managementType =
       nativeKeyProvider) ∧
    generateKey stNativeW none "k1" =
      (stNativeW, Except.error "Cannot generate keys with native key provider") :=
  ⟨⟨by decide, by decide⟩,
   generateKey_native_fails stNativeW none "k1" (by decide) (by decide)⟩

/-! ### C2: `SetDefault` with an unregistered explicit cluster ID is not atomic -/

/-- C2: `SetDefaultKmsCluster` with a non-empty cluster ID that is not registered
fails with the invalid-cluster-ID fault, but only after the per-cluster mutation
has been applied to every cluster in registry order; in particular every cluster's
`UseAsDefault` flag has been cleared (and its entity defaults emptied) and those
cleared flags survive the failed call. -/
theorem setDefault_unregistered_mutates (st : CryptoManagerKmipState) (id : String)
    (entity : Option ManagedObjectReference) (hid : id ≠ "")
    (hunreg : ∀ c ∈ st.kmipServers, c.clusterId ≠ id) :
    setDefaultKmsCluster st (some id) entity =
      ({ st with kmipServers := st.kmipServers.map (setDefaultUpdate id entity) },
       Except.error "Invalid cluster ID") ∧
    ∀ c ∈ (setDefaultKmsCluster st (some id) entity).1.kmipServers,
      c.useAsDefault = false ∧ c.useAsEntityDefault = [] := by
  have hany : st.kmipServers.any (fun c => c.clusterId == id) = false := by
    rw [List.any_eq_false]
    intro c hc
    simpa using hunreg c hc
  constructor
  · simp [setDefaultKmsCluster, hid, hany]
  · intro c hc
    simp only [setDefaultKmsCluster, if_neg hid] at hc
    obtain ⟨a, ha, rfl⟩ := List.mem_map.mp hc
    have hne : a.clusterId ≠ id := hunreg a ha
    simp [setDefaultUpdate, hne]

/-- Witness for C2: `st0c1` holds clusters `A` and `B` (with `B` the default);
setting default to unregistered `X` fails yet clears `B`'s flag. -/
theorem setDefault_unregistered_mutates_witness :
    (("X" : String) ≠ "" ∧ ∀ c ∈ st0c1.kmipServers, c.clusterId ≠ "X") ∧
    (setDefaultKmsCluster st0c1 (some "X") none =
      ({ st0c1 with
          kmipServers := st0c1.kmipServers.map (setDefaultUpdate "X" none) },
       Except.error "Invalid cluster ID") ∧
     ∀ c ∈ (setDefaultKmsCluster st0c1 (some "X") none).1.kmipServers,
       c.useAsDefault = false ∧ c.useAsEntityDefault = []) :=
  ⟨⟨by decide, by decide⟩,
   setDefault_unregistered_mutates st0c1 "X" none (by decide) (by decide)⟩

/-! ### C1: effect of `SetDefault` with explicit cluster and entity -/

/-- Effect of `SetDefaultKmsCluster st (some id) (some e)` as the code actually
implements it: success, the ledger and the number of clusters unchanged; the
matching cluster gains `e` in `UseAsEntityDefault` (a no-op if already present)
with everything else about it untouched, while every non-matching cluster has its
`UseAsDefault` flag cleared and its whole `UseAsEntityDefault` list emptied. -/
def setDefaultEntityEffect (st : CryptoManagerKmipState) (id : String)
    (e : ManagedObjectReference) : Prop :=
  (setDefaultKmsCluster st (some id) (some e)).2 = Except.ok () ∧
  (setDefaultKmsCluster st (some id) (some e)).1.keyIDToProviderID =
    st.keyIDToProviderID ∧
  (setDefaultKmsCluster st (some id) (some e)).1.kmipServers.length =
    st.kmipServers.length ∧
  ∀ (i : Nat) (h1 : i < st.kmipServers.length)
    (h2 : i < (setDefaultKmsCluster st (some id) (some e)).1.kmipServers.length),
    ((st.kmipServers.get ⟨i, h1⟩).clusterId = id →
      (setDefaultKmsCluster st (some id) (some e)).1.kmipServers.get ⟨i, h2⟩ =
        (if e ∈ (st.kmipServers.get ⟨i, h1⟩).useAsEntityDefault then
          st.kmipServers.get ⟨i, h1⟩
         else
          { st.kmipServers.get ⟨i, h1⟩ with
            useAsEntityDefault :=
              (st.kmipServers.get ⟨i, h1⟩).useAsEntityDefault ++ [e] })) ∧
    ((st.kmipServers.get ⟨i, h1⟩).clusterId ≠ id →
      (setDefaultKmsCluster st (some id) (some e)).1.kmipServers.get ⟨i, h2⟩ =
        { st.kmipServers.get ⟨i, h1⟩ with
          useAsDefault := false, useAsEntityDefault := [] })

/-- C1 counterexample: in `st0c1`, setting the default of registered cluster `A`
for entity `entE` flips the other cluster `B`'s `UseAsDefault` flag from `true` to
`false` and deletes its unrelated entity entry `entP ≠ entE` — contradicting the
claim that other clusters' flags and non-`entE` entries are unchanged. -/
theorem setDefault_entity_frame_counterexample :
    ((setDefaultKmsCluster st0c1 (some "A") (some entE)).1.kmipServers.getD 1
        emptyClusterInfo).useAsDefault = false ∧
    (st0c1.kmipServers.getD 1 emptyClusterInfo).useAsDefault = true ∧
    ((setDefaultKmsCluster st0c1 (some "A") (some entE)).1.kmipServers.getD 1
        emptyClusterInfo).useAsEntityDefault = [] ∧
    (st0c1.kmipServers.getD 1 emptyClusterInfo).useAsEntityDefault = [entP] ∧
    entP ≠ entE ∧
    (st0c1.kmipServers.getD 1 emptyClusterInfo).clusterId ≠ "A" := by decide

/-- C1 as amended: for every registry state, every registered cluster with a
non-empty ID and every entity, `SetDefaultKmsCluster` succeeds, adds the entity to
that cluster's `UseAsEntityDefault` (a no-op if already present) leaving the rest
of that cluster unchanged, and on every other cluster clears the `UseAsDefault`
flag and empties the whole `UseAsEntityDefault` list. -/
theorem setDefault_entity_effect (st : CryptoManagerKmipState) (id : String)
    (e : ManagedObjectReference) (hid : id ≠ "")
    (hreg : ∃ c ∈ st.kmipServers, c.clusterId = id) :
    setDefaultEntityEffect st id e := by
  have hany : st.kmipServers.any (fun c => c.clusterId == id) = true := by
    obtain ⟨c, hc, hcid⟩ := hreg
    exact List.any_eq_true.mpr ⟨c, hc, by simp [hcid]⟩
  have hmap : (setDefaultKmsCluster st (some id) (some e)).1.kmipServers =
      st.kmipServers.map (setDefaultUpdate id (some e)) := by
    simp [setDefaultKmsCluster, hid]
  refine ⟨?_, ?_, ?_, ?_⟩
  · simp [setDefaultKmsCluster, hid, hany]
  · simp [setDefaultKmsCluster, hid]
  · rw [hmap, List.length_map]
  · intro i h1 h2
    simp only [List.get_eq_getElem]
    have hget : (setDefaultKmsCluster st (some id) (some e)).1.kmipServers[i] =
        setDefaultUpdate id (some e) st.kmipServers[i] := by
      simp only [hmap, List.getElem_map]
    refine ⟨fun hcid => ?_, fun hcid => ?_⟩
    · rw [hget]
      simp only [setDefaultUpdate]
      rw [if_neg (by simp [hcid])]
    · rw [hget]
      simp only [setDefaultUpdate]
      rw [if_pos hcid]

/-- Witness for the amended C1 at the concrete registry `st0c1`. -/
theorem setDefault_entity_effect_witness :
    (("A" : String) ≠ "" ∧ ∃ c ∈ st0c1.kmipServers, c.clusterId = "A") ∧
    setDefaultEntityEffect st0c1 "A" entE :=
  ⟨⟨by decide, by decide⟩, setDefault_entity_effect st0c1 "A" entE (by decide) (by decide)⟩

/-! ### C5: a successful explicit `GenerateKey` is recorded and listed exactly once -/

lemma generateKeyLoop_find (id : String) (hid : id ≠ "") :
    ∀ (cs : List KmipClusterInfo) (c : KmipClusterInfo),
      cs.find? (fun d => d.clusterId == id) = some c →
      generateKeyLoop (some id) cs emptyClusterInfo = c := by
  intro cs
  induction cs with
  | nil => intro c h; simp at h
  | cons a rest ih =>
      intro c h
      by_cases ha : a.clusterId = id
      · rw [List.find?_cons_of_pos _ (by simp [ha])] at h
        injection h with h
        subst h
        simp only [generateKeyLoop]
        have hb : (id == a.clusterId) = true := by simp [ha]
        rw [hb]
        simp only [if_true]
        rw [if_pos (show a.clusterId ≠ "" by rw [ha]; exact hid)]
      · rw [List.find?_cons_of_neg _ (by simp [ha])] at h
        simp only [generateKeyLoop]
        have hb : (id == a.clusterId) = false := by
          simp only [beq_eq_false_iff_ne]
          exact fun hh => ha hh.symm
        rw [hb]
        simp only [if_false, Bool.false_eq_true]
        rw [if_neg (show ¬emptyClusterInfo.clusterId ≠ "" by simp [emptyClusterInfo])]
        exact ih c h

lemma ledgerInsert_of_fresh (k v : String) :
    ∀ led : List (String × String), (∀ kv ∈ led, kv.1 ≠ k) →
      ledgerInsert k v led = led ++ [(k, v)] := by
  intro led
  induction led with
  | nil => intro _; rfl
  | cons kv rest ih =>
      intro h
      have hk : kv.1 ≠ k := h kv (by simp)
      simp only [ledgerInsert]
      rw [if_neg (by simpa using hk)]
      rw [ih (fun x hx => h x (by simp [hx]))]
      simp

/-- C5: for every registered non-native cluster `X` with a non-empty ID (resolved
as `find?` resolves the explicit provider) and a fresh key ID, `GenerateKey` with
explicit cluster `X` succeeds returning the key, records it against `X` in the
ledger, `IsValidKey` subsequently accepts it, and `ListKeys` with no limit
subsequently lists it exactly once. -/
theorem generateKey_success_roundtrip (st : CryptoManagerKmipState)
    (id newKey : String) (c : KmipClusterInfo) (hid : id ≠ "")
    (hfind : st.kmipServers.find? (fun d => d.clusterId == id) = some c)
    (hnat : c.managementType ≠ nativeKeyProvider)
    (hfresh : ∀ kv ∈ st.keyIDToProviderID, kv.1 ≠ newKey) :
    (generateKey st (some id) newKey).2 = Except.ok newKey ∧
    (generateKey st (some id) newKey).1.keyIDToProviderID =
      st.keyIDToProviderID ++ [(newKey, id)] ∧
    isValidKey (generateKey st (some id) newKey).1 newKey = true ∧
    (listKeys (generateKey st (some id) newKey).1 none).countP
      (fun kv => kv.1 == newKey) = 1 := by
  have hres : generateKeyLoop (some id) st.kmipServers emptyClusterInfo = c :=
    generateKeyLoop_find id hid st.kmipServers c hfind
  have hcid : c.clusterId = id := by
    have := List.find?_some hfind
    simpa using this
  have hcne : c.clusterId ≠ "" := by rw [hcid]; exact hid
  have hgen : generateKey st (some id) newKey =
      ({ st with keyIDToProviderID :=
          st.keyIDToProviderID ++ [(newKey, id)] }, Except.ok newKey) := by
    simp only [generateKey, hres]
    rw [if_neg hcne, if_neg hnat, hcid,
      ledgerInsert_of_fresh newKey id st.keyIDToProviderID hfresh]
  have hmem : (newKey, id) ∈ st.keyIDToProviderID ++ [(newKey, id)] := by simp
  refine ⟨by rw [hgen], by rw [hgen], ?_, ?_⟩
  · rw [hgen]
    unfold isValidKey listKeys limitOf
    rw [List.take_length]
    exact List.any_eq_true.mpr ⟨(newKey, id), hmem, by simp⟩
  · rw [hgen]
    unfold listKeys limitOf
    rw [List.take_length, List.countP_append]
    have h0 : st.keyIDToProviderID.countP (fun kv => kv.1 == newKey) = 0 := by
      rw [List.countP_eq_zero]
      intro kv hkv
      simpa using hfresh kv hkv
    rw [h0]
    simp

/-- Witness for C5: generating a key against the registered non-native cluster `A`
of `st0c1` with fresh key ID `k1`. -/
theorem generateKey_success_roundtrip_witness :
    ((("A" : String) ≠ "" ∧
      st0c1.kmipServers.find? (fun d => d.clusterId == "A") =
        some ⟨"A", "t", false, [], []⟩ ∧
      ("t" : String) ≠ nativeKeyProvider ∧
      ∀ kv ∈ st0c1.keyIDToProviderID, kv.1 ≠ "k1")) ∧
    ((generateKey st0c1 (some "A") "k1").2 = Except.ok "k1" ∧
     (generateKey st0c1 (some "A") "k1").1.keyIDToProviderID =
       st0c1.keyIDToProviderID ++ [("k1", "A")] ∧
     isValidKey (generateKey st0c1 (some "A") "k1").1 "k1" = true ∧
     (listKeys (generateKey st0c1 (some "A") "k1").1 none).countP
       (fun kv => kv.1 == "k1") = 1) :=
  ⟨⟨by decide, by decide, by decide, by decide⟩,
   generateKey_success_roundtrip st0c1 "A" "k1" ⟨"A", "t", false, [], []⟩
     (by decide) (by decide) (by decide) (by decide)⟩

/-! ### Helper lemmas for the status resolver -/

lemma foldl_if_const {α β : Type} (p : α → Bool) (h : α → β) :
    ∀ (l : List α) (init : β), (∀ x ∈ l, p x = true → h x = init) →
      l.foldl (fun acc x => if p x then h x else acc) init = init := by
  intro l
  induction l with
  | nil => intro init _; rfl
  | cons x t ih =>
      intro init hx
      simp only [List.foldl_cons]
      by_cases hp : p x = true
      · rw [if_pos hp, hx x (by simp) hp]
        exact ih init (fun y hy hpy => hx y (by simp [hy]) hpy)
      · rw [if_neg hp]
        exact ih init (fun y hy hpy => hx y (by simp [hy]) hpy)

lemma filter_eq_self_singleton {α : Type} (f : α → String) :
    ∀ l : List α, (l.map f).Nodup → ∀ a ∈ l,
      l.filter (fun x => f a == f x) = [a] := by
  intro l
  induction l with
  | nil => intro _ a ha; simp at ha
  | cons b t ih =>
      intro hnd a ha
      have hb : f b ∉ t.map f := by
        rw [List.map_cons, List.nodup_cons] at hnd
        exact hnd.1
      have ht : (t.map f).Nodup := by
        rw [List.map_cons, List.nodup_cons] at hnd
        exact hnd.2
      rcases List.mem_cons.mp ha with rfl | hat
      · rw [List.filter_cons_of_pos (by simp)]
        have : t.filter (fun x => f a == f x) = [] := by
          rw [List.filter_eq_nil_iff]
          intro x hx
          simp only [beq_iff_eq]
          intro hfx
          exact hb (hfx ▸ List.mem_map_of_mem f hx)
        rw [this]
      · have hneq : f a ≠ f b := by
          intro hfab
          exact hb (hfab ▸ List.mem_map_of_mem f hat)
        rw [List.filter_cons_of_neg (by simpa using hneq)]
        exact ih ht a hat

lemma flatMap_singleton_eq_map {α β : Type} (F : α → List β) (G : α → β) :
    ∀ l : List α, (∀ a ∈ l, F a = [G a]) → l.flatMap F = l.map G := by
  intro l
  induction l with
  | nil => intro _; rfl
  | cons a t ih =>
      intro h
      rw [List.flatMap_cons, h a (by simp), List.map_cons,
        ih (fun x hx => h x (by simp [hx]))]
      rfl

lemma statusExpand_clusterId (registry : List KmipClusterInfo)
    (g : KmipClusterInfo) : (statusExpand registry g).clusterId = g.clusterId := by
  unfold statusExpand
  by_cases h : g.servers.isEmpty
  · rw [if_pos h]
  · rw [if_neg h]

lemma statusExpand_self (registry : List KmipClusterInfo)
    (hnd : (registry.map (fun c => c.clusterId)).Nodup) (g : KmipClusterInfo)
    (hg : g ∈ registry) : statusExpand registry g = g := by
  unfold statusExpand
  by_cases h : g.servers.isEmpty
  · rw [if_pos h]
    have hlast : lastMatchServers registry g = g.servers := by
      unfold lastMatchServers
      apply foldl_if_const
      intro c hc hpc
      have hcid : g.clusterId = c.clusterId := by simpa using hpc
      have : c = g := List.inj_on_of_nodup_map hnd hc hg hcid.symm
      rw [this]
    rw [hlast]
  · rw [if_neg h]

/-- Well-formed registry, as reachable through the registration operations:
cluster IDs are pairwise distinct and server names are pairwise distinct within
each cluster. -/
def wellFormedRegistry (cs : List KmipClusterInfo) : Prop :=
  (cs.map (fun c => c.clusterId)).Nodup ∧
  ∀ c ∈ cs, (c.servers.map (fun s => s.name)).Nodup

/-! ### C6: status query with no selectors -/

/-- C6: on a well-formed registry, the status task with no selectors returns
exactly one record per registered cluster, in registration order, carrying the
cluster's management type, the fixed healthy overall status and one healthy
server-status record per server of that cluster. -/
theorem statusTask_no_selectors (st : CryptoManagerKmipState)
    (h : wellFormedRegistry st.kmipServers) :
    retrieveKmipServerStatusRun st.kmipServers [] =
      st.kmipServers.map (fun c =>
        { clusterId := c.clusterId, managementType := c.managementType,
          overallStatus := statusGreen,
          servers := c.servers.map (fun s => ⟨s.name, statusGreen⟩) }) := by
  unfold retrieveKmipServerStatusRun
  simp only [List.isEmpty_nil, if_true]
  have hget2 : st.kmipServers.map (statusExpand st.kmipServers) = st.kmipServers := by
    have : st.kmipServers.map (statusExpand st.kmipServers) =
        st.kmipServers.map id :=
      List.map_congr_left (fun a ha => statusExpand_self st.kmipServers h.1 a ha)
    rw [this, List.map_id]
  rw [hget2]
  apply flatMap_singleton_eq_map
  intro c hc
  rw [filter_eq_self_singleton (fun d => d.clusterId) st.kmipServers h.1 c hc]
  simp only [List.map_cons, List.map_nil]
  congr 1
  unfold clusterStatusFor
  simp only [CryptoManagerKmipClusterStatus.mk.injEq, true_and]
  apply flatMap_singleton_eq_map
  intro s hs
  rw [filter_eq_self_singleton (fun t => t.name) c.servers (h.2 c hc) s hs]
  rfl

/-- Witness for C6: registry holding `pA` with servers `s1`, `s2` and `pB` with
none. -/
theorem statusTask_no_selectors_witness :
    wellFormedRegistry
      [⟨"pA", "t", false, [], [⟨"s1", "a"⟩, ⟨"s2", "a"⟩]⟩,
       ⟨"pB", "t", false, [], []⟩] ∧
    retrieveKmipServerStatusRun
      [⟨"pA", "t", false, [], [⟨"s1", "a"⟩, ⟨"s2", "a"⟩]⟩,
       ⟨"pB", "t", false, [], []⟩] [] =
      [⟨"pA", "t", statusGreen, [⟨"s1", statusGreen⟩, ⟨"s2", statusGreen⟩]⟩,
       ⟨"pB", "t", statusGreen, []⟩] := by
  constructor
  · exact ⟨by decide, by decide⟩
  · have := statusTask_no_selectors
      ⟨[⟨"pA", "t", false, [], [⟨"s1", "a"⟩, ⟨"s2", "a"⟩]⟩,
        ⟨"pB", "t", false, [], []⟩], []⟩ ⟨by decide, by decide⟩
    simpa using this

/-! ### C10: duplicate selectors are not deduplicated -/

lemma countP_flatMap {α β : Type} (p : β → Bool) (F : α → List β) :
    ∀ l : List α, (l.flatMap F).countP p = (l.map (fun a => (F a).countP p)).sum := by
  intro l
  induction l with
  | nil => rfl
  | cons a t ih =>
      rw [List.flatMap_cons, List.countP_append, List.map_cons, List.sum_cons, ih]

lemma sum_map_ite_countP {α : Type} (q : α → Bool) (n : Nat) :
    ∀ l : List α, (l.map (fun a => if q a then n else 0)).sum = n * l.countP q := by
  intro l
  induction l with
  | nil => simp
  | cons a t ih =>
      rw [List.map_cons, List.sum_cons, ih, List.countP_cons]
      by_cases hq : q a = true
      · rw [if_pos hq, if_pos hq, Nat.mul_add, Nat.mul_one]
        omega
      · rw [if_neg hq, if_neg hq]
        simp

/-- C10: on a registry with distinct cluster IDs, if the selector list passed to
the status task is non-empty and mentions the registered cluster ID `X` exactly
`k` times (`k` at least 2), the returned sequence contains exactly `k` status
records for that cluster: one record per (registered cluster, matching selector)
pair, with no deduplication. -/
theorem statusTask_duplicate_selectors (st : CryptoManagerKmipState)
    (get : List KmipClusterInfo) (X : String) (k : Nat)
    (hnd : (st.kmipServers.map (fun c => c.clusterId)).Nodup)
    (hreg : X ∈ st.kmipServers.map (fun c => c.clusterId))
    (hget : get ≠ []) (hk : 2 ≤ k)
    (hcount : get.countP (fun g => g.clusterId == X) = k) :
    (retrieveKmipServerStatusRun st.kmipServers get).countP
      (fun r => r.clusterId == X) = k := by
  simp only [retrieveKmipServerStatusRun]
  rw [if_neg (by simpa [List.isEmpty_iff] using hget)]
  rw [countP_flatMap]
  have hptw : ∀ c ∈ st.kmipServers,
      (((get.map (statusExpand st.kmipServers)).filter
          (fun g => c.clusterId == g.clusterId)).map
        (clusterStatusFor c)).countP (fun r => r.clusterId == X) =
      if (fun c => c.clusterId == X) c then k else 0 := by
    intro c hc
    rw [List.countP_map]
    have hcomp : ((fun r => r.clusterId == X) ∘ (clusterStatusFor c)) =
        fun g => c.clusterId == X := rfl
    rw [hcomp]
    by_cases hcx : (c.clusterId == X) = true
    · rw [if_pos hcx]
      have hcid : c.clusterId = X := by simpa using hcx
      have hconst : ∀ g ∈ (get.map (statusExpand st.kmipServers)).filter
          (fun g => c.clusterId == g.clusterId),
          (fun g => c.clusterId == X) g = true := fun g _ => hcx
      rw [List.countP_eq_length_filter, List.filter_eq_self.mpr hconst,
        ← List.countP_eq_length_filter, List.countP_map]
      have hiff : ∀ g ∈ get,
          (((fun g => c.clusterId == g.clusterId) ∘
            statusExpand st.kmipServers) g = true) ↔
          ((fun g => g.clusterId == X) g = true) := by
        intro g hg
        simp only [Function.comp_apply, statusExpand_clusterId, hcid, beq_iff_eq]
        exact eq_comm
      rw [List.countP_congr hiff]
      exact hcount
    · rw [if_neg hcx]
      rw [List.countP_eq_zero]
      intro g hg
      exact fun hh => hcx hh
  rw [List.map_congr_left hptw, sum_map_ite_countP]
  have h1 : st.kmipServers.countP (fun c => c.clusterId == X) = 1 := by
    have hstep : st.kmipServers.countP (fun c => c.clusterId == X) =
        (st.kmipServers.map (fun c => c.clusterId)).countP (fun s => s == X) := by
      rw [List.countP_map]
      rfl
    rw [hstep, ← List.count_eq_countP]
    exact List.count_eq_one_of_mem hnd hreg
  rw [h1, Nat.mul_one]

/-- Witness for C10: the selector naming `pA` twice yields two `pA` records. -/
theorem statusTask_duplicate_selectors_witness :
    (([⟨"pA", "t", false, [], []⟩, ⟨"pB", "t", false, [], []⟩].map
        (fun (c : KmipClusterInfo) => c.clusterId)).Nodup ∧
     ("pA" : String) ∈ [⟨"pA", "t", false, [], []⟩, ⟨"pB", "t", false, [], []⟩].map
        (fun (c : KmipClusterInfo) => c.clusterId) ∧
     ([⟨"pA", "", false, [], []⟩, ⟨"pA", "", false, [], []⟩] :
        List KmipClusterInfo) ≠ [] ∧
     (2 : Nat) ≤ 2 ∧
     ([⟨"pA", "", false, [], []⟩, ⟨"pA", "", false, [], []⟩] :
        List KmipClusterInfo).countP (fun g => g.clusterId == "pA") = 2) ∧
    (retrieveKmipServerStatusRun
      [⟨"pA", "t", false, [], []⟩, ⟨"pB", "t", false, [], []⟩]
      [⟨"pA", "", false, [], []⟩, ⟨"pA", "", false, [], []⟩]).countP
        (fun r => r.clusterId == "pA") = 2 :=
  ⟨⟨by decide, by decide, by decide, by decide, by decide⟩,
   statusTask_duplicate_selectors
     ⟨[⟨"pA", "t", false, [], []⟩, ⟨"pB", "t", false, [], []⟩], []⟩
     [⟨"pA", "", false, [], []⟩, ⟨"pA", "", false, [], []⟩] "pA" 2
     (by decide) (by decide) (by decide) (by decide) (by decide)⟩

/-! ### C3: the default-uniqueness invariant is preserved by every operation -/

/-- Number of clusters flagged as the global default. -/
def flagCount (cs : List KmipClusterInfo) : Nat :=
  cs.countP (fun c => c.useAsDefault)

/-- Number of clusters holding entity `e` in `UseAsEntityDefault`. -/
def entityCount (e : ManagedObjectReference) (cs : List KmipClusterInfo) : Nat :=
  cs.countP (fun c => decide (e ∈ c.useAsEntityDefault))

/-- Registry invariant: cluster IDs are unique (the spec's "identified by a
unique string ClusterID"), at most one cluster is the global default, and each
entity is an entity default of at most one cluster. -/
def registryInv (st : CryptoManagerKmipState) : Prop :=
  (st.kmipServers.map (fun c => c.clusterId)).Nodup ∧
  flagCount st.kmipServers ≤ 1 ∧
  ∀ e, entityCount e st.kmipServers ≤ 1

/-- One call against the simulator, with the arguments the caller controls. -/
inductive CryptoOp where
  | registerCluster (clusterId managementType : String)
  | unregisterCluster (clusterId : String)
  | registerServer (clusterId : String) (info : KmipServerInfo)
  | updateServer (clusterId : String) (info : KmipServerInfo)
  | removeServer (clusterId serverName : String)
  | setDefault (clusterId : Option String) (entity : Option ManagedObjectReference)
  | markDefaultOp (clusterId : String)
  | generateKeyOp (keyProvider : Option String) (newKey : String)

/-- State reached after one operation (faulted calls keep the state the
operation left behind, exactly as the Go methods do). -/
def applyOp (st : CryptoManagerKmipState) : CryptoOp → CryptoManagerKmipState
  | .registerCluster id t => (registerKmsCluster st id t).1
  | .unregisterCluster id => (unregisterKmsCluster st id).1
  | .registerServer id info => (registerKmipServer st id info).1
  | .updateServer id info => (updateKmipServer st id info).1
  | .removeServer id n => (removeKmipServer st id n).1
  | .setDefault cid e => (setDefaultKmsCluster st cid e).1
  | .markDefaultOp cid => (markDefault st cid).1
  | .generateKeyOp kp k => (generateKey st kp k).1

/-- State reached after a sequence of operations. -/
def applyOps (st : CryptoManagerKmipState) (ops : List CryptoOp) :
    CryptoManagerKmipState :=
  ops.foldl applyOp st

/-- Projection of a cluster to the fields the invariant depends on. -/
def clusterCore (c : KmipClusterInfo) :
    String × Bool × List ManagedObjectReference :=
  (c.clusterId, c.useAsDefault, c.useAsEntityDefault)

lemma inv_parts_of_core_eq (cs cs' : List KmipClusterInfo)
    (h : cs'.map clusterCore = cs.map clusterCore) :
    cs'.map (fun c => c.clusterId) = cs.map (fun c => c.clusterId) ∧
    flagCount cs' = flagCount cs ∧
    ∀ e, entityCount e cs' = entityCount e cs := by
  refine ⟨?_, ?_, fun e => ?_⟩
  · calc cs'.map (fun c => c.clusterId)
        = (cs'.map clusterCore).map (fun t => t.1) := by
          rw [List.map_map]
          exact List.map_congr_left (fun a _ => rfl)
      _ = (cs.map clusterCore).map (fun t => t.1) := by rw [h]
      _ = cs.map (fun c => c.clusterId) := by
          rw [List.map_map]
          exact List.map_congr_left (fun a _ => rfl)
  · calc flagCount cs'
        = (cs'.map clusterCore).countP (fun t => t.2.1) := by
          rw [List.countP_map]; rfl
      _ = (cs.map clusterCore).countP (fun t => t.2.1) := by rw [h]
      _ = flagCount cs := by rw [List.countP_map]; rfl
  · calc entityCount e cs'
        = (cs'.map clusterCore).countP (fun t => decide (e ∈ t.2.2)) := by
          rw [List.countP_map]; rfl
      _ = (cs.map clusterCore).countP (fun t => decide (e ∈ t.2.2)) := by rw [h]
      _ = entityCount e cs := by rw [List.countP_map]; rfl

lemma registryInv_of_core_eq (st' st : CryptoManagerKmipState)
    (h : st'.kmipServers.map clusterCore = st.kmipServers.map clusterCore)
    (hinv : registryInv st) : registryInv st' := by
  obtain ⟨h1, h2, h3⟩ := inv_parts_of_core_eq st.kmipServers st'.kmipServers h
  refine ⟨by rw [h1]; exact hinv.1, by
    unfold registryInv at hinv
    rw [h2]; exact hinv.2.1, fun e => by rw [h3 e]; exact hinv.2.2 e⟩

lemma registerServerIn_core (id : String) (info : KmipServerInfo) :
    ∀ cs : List KmipClusterInfo,
      (registerServerIn id info cs).1.map clusterCore = cs.map clusterCore := by
  intro cs
  induction cs with
  | nil => rfl
  | cons c rest ih =>
      by_cases hc : (c.clusterId == id) = true
      · by_cases hs : (c.servers.any (fun s => s.name == info.name)) = true
        · simp [registerServerIn, hc, hs, clusterCore]
        · simp [registerServerIn, hc, hs, clusterCore]
      · simp [registerServerIn, hc, clusterCore, ih]

lemma updateServerIn_core (id : String) (info : KmipServerInfo) :
    ∀ cs : List KmipClusterInfo,
      (updateServerIn id info cs).1.map clusterCore = cs.map clusterCore := by
  intro cs
  induction cs with
  | nil => rfl
  | cons c rest ih =>
      by_cases hc : (c.clusterId == id) = true
      · by_cases hf : (updateServerList info c.servers).2 = true
        · simp [updateServerIn, hc, hf, clusterCore]
        · simp [updateServerIn, hc, hf, clusterCore]
      · simp [updateServerIn, hc, clusterCore, ih]

lemma removeServerIn_core (id serverName : String) :
    ∀ cs : List KmipClusterInfo,
      (removeServerIn id serverName cs).1.map clusterCore = cs.map clusterCore := by
  intro cs
  induction cs with
  | nil => rfl
  | cons c rest ih =>
      by_cases hc : (c.clusterId == id) = true
      · cases hj : c.servers.findIdx? (fun s => s.name == serverName) with
        | some j => simp [removeServerIn, hc, hj, clusterCore]
        | none => simp [removeServerIn, hc, hj, clusterCore]
      · simp [removeServerIn, hc, clusterCore, ih]

lemma setDefaultUpdate_clusterId (id : String)
    (entity : Option ManagedObjectReference) (c : KmipClusterInfo) :
    (setDefaultUpdate id entity c).clusterId = c.clusterId := by
  unfold setDefaultUpdate
  by_cases hc : c.clusterId ≠ id
  · rw [if_pos hc]
  · rw [if_neg hc]
    cases entity with
    | none => rfl
    | some e =>
        by_cases he : e ∈ c.useAsEntityDefault
        · simp [he]
        · simp [he]

lemma setDefaultClear_clusterId (entity : Option ManagedObjectReference)
    (c : KmipClusterInfo) :
    (setDefaultClear entity c).clusterId = c.clusterId := by
  unfold setDefaultClear
  cases entity with
  | none => rfl
  | some e =>
      cases hj : c.useAsEntityDefault.findIdx? (fun x => x == e) with
      | some j => simp [hj]
      | none => simp [hj]

lemma countP_clusterId_le_one (cs : List KmipClusterInfo) (id : String)
    (hnd : (cs.map (fun c => c.clusterId)).Nodup) :
    cs.countP (fun c => c.clusterId == id) ≤ 1 := by
  have hstep : cs.countP (fun c => c.clusterId == id) =
      (cs.map (fun c => c.clusterId)).countP (fun s => s == id) := by
    rw [List.countP_map]
    rfl
  rw [hstep, ← List.count_eq_countP]
  exact List.nodup_iff_count_le_one.mp hnd id

lemma registryInv_setDefaultExplicit (st : CryptoManagerKmipState) (id : String)
    (entity : Option ManagedObjectReference) (h : registryInv st) :
    registryInv
      { st with kmipServers := st.kmipServers.map (setDefaultUpdate id entity) } := by
  refine ⟨?_, ?_, fun e => ?_⟩
  · have : (st.kmipServers.map (setDefaultUpdate id entity)).map
        (fun c => c.clusterId) = st.kmipServers.map (fun c => c.clusterId) := by
      rw [List.map_map]
      exact List.map_congr_left
        (fun a _ => setDefaultUpdate_clusterId id entity a)
    rw [this]
    exact h.1
  · unfold flagCount
    rw [List.countP_map]
    have hmono : st.kmipServers.countP
        (fun c => (setDefaultUpdate id entity c).useAsDefault) ≤
        st.kmipServers.countP (fun c => c.clusterId == id) := by
      apply List.countP_mono_left
      intro c hc hflag
      by_cases hcid : c.clusterId = id
      · simp [hcid]
      · exfalso
        unfold setDefaultUpdate at hflag
        rw [if_pos hcid] at hflag
        simp at hflag
    exact le_trans hmono (countP_clusterId_le_one st.kmipServers id h.1)
  · unfold entityCount
    rw [List.countP_map]
    have hmono : st.kmipServers.countP
        (fun c => decide (e ∈ (setDefaultUpdate id entity c).useAsEntityDefault)) ≤
        st.kmipServers.countP (fun c => c.clusterId == id) := by
      apply List.countP_mono_left
      intro c hc hmem
      by_cases hcid : c.clusterId = id
      · simp [hcid]
      · exfalso
        unfold setDefaultUpdate at hmem
        rw [if_pos hcid] at hmem
        simp at hmem
    exact le_trans hmono (countP_clusterId_le_one st.kmipServers id h.1)

lemma setDefaultClear_flag (entity : Option ManagedObjectReference)
    (c : KmipClusterInfo) :
    (setDefaultClear entity c).useAsDefault = true → c.useAsDefault = true := by
  unfold setDefaultClear
  cases entity with
  | none => intro hh; simp at hh
  | some e =>
      cases hj : c.useAsEntityDefault.findIdx? (fun x => x == e) with
      | some j => simp [hj]
      | none => simp [hj]

lemma setDefaultClear_mem (entity : Option ManagedObjectReference)
    (c : KmipClusterInfo) (e : ManagedObjectReference) :
    e ∈ (setDefaultClear entity c).useAsEntityDefault →
    e ∈ c.useAsEntityDefault := by
  unfold setDefaultClear
  cases entity with
  | none => exact fun hh => hh
  | some e0 =>
      cases hj : c.useAsEntityDefault.findIdx? (fun x => x == e0) with
      | some j =>
          intro hh
          simp only [hj] at hh
          exact List.mem_of_mem_eraseIdx hh
      | none =>
          intro hh
          simp only [hj] at hh
          exact hh

lemma registryInv_setDefaultClear (st : CryptoManagerKmipState)
    (entity : Option ManagedObjectReference) (h : registryInv st) :
    registryInv
      { st with kmipServers := st.kmipServers.map (setDefaultClear entity) } := by
  refine ⟨?_, ?_, fun e => ?_⟩
  · have : (st.kmipServers.map (setDefaultClear entity)).map
        (fun c => c.clusterId) = st.kmipServers.map (fun c => c.clusterId) := by
      rw [List.map_map]
      exact List.map_congr_left (fun a _ => setDefaultClear_clusterId entity a)
    rw [this]
    exact h.1
  · unfold flagCount
    rw [List.countP_map]
    refine le_trans (List.countP_mono_left ?_) h.2.1
    intro c hc hflag
    exact setDefaultClear_flag entity c hflag
  · unfold entityCount
    rw [List.countP_map]
    refine le_trans (List.countP_mono_left ?_) (h.2.2 e)
    intro c hc hmem
    exact decide_eq_true (setDefaultClear_mem entity c e (of_decide_eq_true hmem))

lemma registryInv_setDefault (st : CryptoManagerKmipState)
    (cid : Option String) (entity : Option ManagedObjectReference)
    (h : registryInv st) : registryInv (setDefaultKmsCluster st cid entity).1 := by
  cases cid with
  | none => exact registryInv_setDefaultClear st entity h
  | some id =>
      by_cases hid : id = ""
      · simp only [setDefaultKmsCluster, if_pos hid]
        exact registryInv_setDefaultClear st entity h
      · simp only [setDefaultKmsCluster, if_neg hid]
        exact registryInv_setDefaultExplicit st id entity h

lemma registryInv_registerCluster (st : CryptoManagerKmipState)
    (id t : String) (h : registryInv st) :
    registryInv (registerKmsCluster st id t).1 := by
  unfold registerKmsCluster
  by_cases hany : (st.kmipServers.any (fun c => c.clusterId == id)) = true
  · rw [if_pos hany]
    exact h
  · rw [if_neg hany]
    have hid : id ∉ st.kmipServers.map (fun c => c.clusterId) := by
      intro hmem
      obtain ⟨c, hc, hcid⟩ := List.mem_map.mp hmem
      exact absurd (List.any_eq_true.mpr ⟨c, hc, by simp [hcid]⟩) hany
    refine ⟨?_, ?_, fun e => ?_⟩
    · rw [List.map_append]
      refine List.Nodup.append h.1 (List.nodup_singleton id) ?_
      intro a ha hb
      rw [List.map_singleton, List.mem_singleton] at hb
      subst hb
      exact hid ha
    · unfold flagCount
      rw [List.countP_append]
      simpa using h.2.1
    · unfold entityCount
      rw [List.countP_append]
      simpa using h.2.2 e

lemma registryInv_unregisterCluster (st : CryptoManagerKmipState)
    (id : String) (h : registryInv st) :
    registryInv (unregisterKmsCluster st id).1 := by
  unfold unregisterKmsCluster
  cases hfind : lastClusterIdx id st.kmipServers 0 none with
  | none => exact h
  | some x =>
      have hsub : (st.kmipServers.eraseIdx x).Sublist st.kmipServers :=
        List.eraseIdx_sublist st.kmipServers x
      refine ⟨?_, ?_, fun e => ?_⟩
      · exact List.Nodup.sublist (List.Sublist.map (fun c => c.clusterId) hsub) h.1
      · exact le_trans (List.Sublist.countP_le _ hsub) h.2.1
      · exact le_trans (List.Sublist.countP_le _ hsub) (h.2.2 e)

lemma generateKey_kmipServers (st : CryptoManagerKmipState)
    (kp : Option String) (k : String) :
    (generateKey st kp k).1.kmipServers = st.kmipServers := by
  simp only [generateKey]
  by_cases h1 : (generateKeyLoop kp st.kmipServers emptyClusterInfo).clusterId = ""
  · rw [if_pos h1]
  · rw [if_neg h1]
    by_cases h2 : (generateKeyLoop kp st.kmipServers emptyClusterInfo).managementType
        = nativeKeyProvider
    · rw [if_pos h2]
    · rw [if_neg h2]

lemma registryInv_applyOp (st : CryptoManagerKmipState) (op : CryptoOp)
    (h : registryInv st) : registryInv (applyOp st op) := by
  cases op with
  | registerCluster id t => exact registryInv_registerCluster st id t h
  | unregisterCluster id => exact registryInv_unregisterCluster st id h
  | registerServer id info =>
      refine registryInv_of_core_eq _ st ?_ h
      exact registerServerIn_core id info st.kmipServers
  | updateServer id info =>
      refine registryInv_of_core_eq _ st ?_ h
      exact updateServerIn_core id info st.kmipServers
  | removeServer id n =>
      refine registryInv_of_core_eq _ st ?_ h
      exact removeServerIn_core id n st.kmipServers
  | setDefault cid e => exact registryInv_setDefault st cid e h
  | markDefaultOp cid => exact registryInv_setDefault st (some cid) none h
  | generateKeyOp kp k =>
      unfold registryInv at h ⊢
      simp only [applyOp]
      rw [generateKey_kmipServers st kp k]
      exact h

/-- C3: starting from any registry state satisfying the invariant (in particular
the empty registry), after any sequence of register/unregister/server/default/
key-generation operations at most one registered cluster has `UseAsDefault = true`
and each entity reference appears in the `UseAsEntityDefault` of at most one
cluster. -/
theorem registry_invariant_sequences (st : CryptoManagerKmipState)
    (h : registryInv st) (ops : List CryptoOp) :
    flagCount (applyOps st ops).kmipServers ≤ 1 ∧
    ∀ e, entityCount e (applyOps st ops).kmipServers ≤ 1 := by
  have hinv : ∀ (l : List CryptoOp) (s : CryptoManagerKmipState),
      registryInv s → registryInv (applyOps s l) := by
    intro l
    induction l with
    | nil => intro s hs; exact hs
    | cons op rest ih =>
        intro s hs
        exact ih (applyOp s op) (registryInv_applyOp s op hs)
  exact ⟨(hinv ops st h).2.1, (hinv ops st h).2.2⟩

/-- The empty simulator state. -/
def cmEmpty : CryptoManagerKmipState := ⟨[], []⟩

/-- A concrete call sequence exercising registration, defaults and entity
defaults. -/
def opsW : List CryptoOp :=
  [CryptoOp.registerCluster "A" "t", CryptoOp.markDefaultOp "A",
   CryptoOp.registerCluster "B" "t", CryptoOp.setDefault (some "B") (some entE),
   CryptoOp.registerServer "A" ⟨"s1", "addr"⟩,
   CryptoOp.generateKeyOp (some "A") "k1"]

/-- Witness for C3 from the empty registry through a concrete call sequence. -/
theorem registry_invariant_sequences_witness :
    registryInv cmEmpty ∧
    (flagCount (applyOps cmEmpty opsW).kmipServers ≤ 1 ∧
     ∀ e, entityCount e (applyOps cmEmpty opsW).kmipServers ≤ 1) := by
  have h : registryInv cmEmpty :=
    ⟨List.nodup_nil, Nat.zero_le 1, fun e => Nat.zero_le 1⟩
  exact ⟨h, registry_invariant_sequences cmEmpty h opsW⟩
